import Mathlib

/-
  Verification of the Mingleo real-time connection hub.

  Shallow embedding of the WebSocket hub in server/routes (the
  wss.on connection / message / close handlers), of the storage
  collaborator methods searchUsers and getSuggestions, and of the
  AIChatBotService periodic-message scheduler.

  Modelling conventions:
  - A JavaScript value that may be undefined is an Option.
  - JavaScript truthiness of a number field is: present and nonzero.
    Truthiness of a string field is: present and nonempty.
  - Wall-clock timestamps placed in payloads are elided; the fresh
    messageId generated from Date.now and Math.random is an opaque
    string parameter.
  - The asynchronous sends of a handler (search results, friend
    suggestions) are appended to the output of the step that spawned
    them; the state observed at send time is the step state.
-/

namespace Mingleo

/-- JS truthiness for a possibly-undefined number field. -/
def truthyNat : Option Nat → Bool
  | some n => n != 0
  | none => false

/-- JS truthiness for a possibly-undefined string field. -/
def truthyStr : Option String → Bool
  | some s => s != ""
  | none => false

/-- A row of the users table (shared/schema.ts); nullable columns are Options. -/
structure User where
  id : Nat
  username : String
  password : String
  firstName : Option String := none
  lastName : Option String := none
  email : Option String := none
  profilePicture : Option String := none
  bio : Option String := none
  status : Option String := none
  deriving DecidableEq, Repr

/-- A user record after destructuring away the password column
    (the pattern used by getSuggestions and the HTTP profile routes). -/
structure UserSansPassword where
  id : Nat
  username : String
  firstName : Option String
  lastName : Option String
  email : Option String
  profilePicture : Option String
  bio : Option String
  status : Option String
  deriving DecidableEq, Repr

/-- const (password, ...rest) destructuring: drop the password field. -/
def stripPassword (u : User) : UserSansPassword :=
  ⟨u.id, u.username, u.firstName, u.lastName, u.email, u.profilePicture, u.bio, u.status⟩

/-- needle is a leading segment of hay. -/
def listStarts : List Char → List Char → Bool
  | [], _ => true
  | _ :: _, [] => false
  | a :: as, b :: bs => (a == b) && listStarts as bs

/-- needle occurs contiguously inside hay. -/
def listInside (needle : List Char) : List Char → Bool
  | [] => needle.isEmpty
  | b :: bs => listStarts needle (b :: bs) || listInside needle bs

/-- Lowercasing, character by character (toLowerCase and SQL LOWER). -/
def lowerChars (l : List Char) : List Char :=
  l.map Char.toLower

/-- SQL LOWER(col) LIKE pat surrounded by percent wildcards,
    where pat is already lowercased. -/
def sqlLike (pat : List Char) (s : String) : Bool :=
  listInside pat (lowerChars s.data)

/-- LIKE on a nullable column: NULL never matches. -/
def sqlLikeOpt (pat : List Char) : Option String → Bool
  | some s => sqlLike pat s
  | none => false

/-- query.trim() is the empty string iff every character is whitespace. -/
def blankStr (s : String) : Bool :=
  s.data.all Char.isWhitespace

/-- DatabaseStorage.searchUsers (storage.ts line 103): empty or blank query
    returns the first 50 rows; otherwise a case-insensitive substring match
    over username, firstName, lastName and bio, limited to 20 rows. -/
def searchUsers (db : List User) (query : String) : List User :=
  if query = "" || blankStr query then
    db.take 50
  else
    let q := lowerChars query.data
    (db.filter (fun u =>
      sqlLike q u.username || sqlLikeOpt q u.firstName ||
      sqlLikeOpt q u.lastName || sqlLikeOpt q u.bio)).take 20

/-- DatabaseStorage.getSuggestions (storage.ts line 183): all users other than
    the given one, limited to 10, each with the password destructured away. -/
def getSuggestions (db : List User) (userId : Option Nat) : List UserSansPassword :=
  ((db.filter (fun u => (some u.id) != userId)).take 10).map stripPassword

/-- The value stored in the clients map by the auth branch:
    userId and username copied verbatim from the auth envelope. -/
structure ClientInfo where
  userId : Option Nat
  username : Option String
  deriving DecidableEq, Repr

/-- An inbound JSON envelope; absent fields are none. -/
structure Envelope where
  type : String
  userId : Option Nat := none
  username : Option String := none
  messageId : Option String := none
  originalSenderId : Option Nat := none
  targetUserId : Option Nat := none
  query : Option String := none
  contactId : Option Nat := none
  status : Option String := none
  ownerId : Option Nat := none
  postId : Option Nat := none
  storyId : Option Nat := none
  reelId : Option Nat := none
  contentId : Option Nat := none
  contentType : Option String := none
  content : Option String := none
  deriving DecidableEq, Repr

/-- The enriched envelope built by the message handler: the inbound data
    spread together with sender info, a messageId (kept when truthy,
    otherwise freshly generated) and originalSenderId. -/
structure Enriched where
  base : Envelope
  senderId : Option Nat
  senderName : Option String
  messageId : Option String
  originalSenderId : Option Nat
  deriving DecidableEq, Repr

/-- A contacts-table row as returned by updateContactStatus. -/
structure ContactRec where
  id : Nat
  userId : Nat
  contactId : Nat
  status : String
  deriving DecidableEq, Repr

/-- An outbound payload placed on the wire (timestamps elided). -/
inductive Wire where
  | connectionConfirm
  | errorMsg (message : String)
  | errorWithCode (message : String) (errorCode : String)
  | userOnline (userId : Option Nat) (username : Option String)
  | userOffline (userId : Option Nat) (username : Option String)
  | onlineUsers (users : List ClientInfo)
  | friendSuggestions (suggestions : List UserSansPassword)
  | searchResults (query : String) (results : List User)
  | ackReply (messageId : Option String)
  | contactStatusChanged (contactId : Nat) (status : String) (updatedBy : Option Nat)
  | enrichedMsg (e : Enriched)
  deriving DecidableEq, Repr

/-- One live connection: its identifier, transport readyState
    (true iff OPEN), and its clients-map binding if authenticated. -/
structure ConnState where
  cid : Nat
  isOpen : Bool
  info : Option ClientInfo
  deriving DecidableEq, Repr

/-- The hub state: wss.clients together with the clients map,
    in iteration order. -/
abbrev HubState := List ConnState

/-- clients.get on a connection identifier. -/
def boundInfo (st : HubState) (c : Nat) : Option ClientInfo :=
  (st.find? (fun k => k.cid == c)).bind (fun k => k.info)

/-- readyState === OPEN for the connection with this identifier;
    a connection no longer in the set is closed. -/
def wsIsOpen (st : HubState) (c : Nat) : Bool :=
  match st.find? (fun k => k.cid == c) with
  | some k => k.isOpen
  | none => false

/-- The userId of a binding, undefined when unbound. -/
def infoUserId : Option ClientInfo → Option Nat
  | some i => i.userId
  | none => none

/-- wss.clients.forEach send guarded by client !== ws and readyState OPEN. -/
def broadcastExcept (st : HubState) (ws : Nat) (w : Wire) : List (Nat × Wire) :=
  (st.filter (fun c => c.cid != ws && c.isOpen)).map (fun c => (c.cid, w))

/-- wss.clients.forEach send guarded by readyState OPEN, a present
    clients-map entry, and clientData.userId === target. -/
def deliverBound (st : HubState) (target : Option Nat) (w : Wire) : List (Nat × Wire) :=
  (st.filter (fun c => c.isOpen && c.info.isSome && infoUserId c.info == target)).map
    (fun c => (c.cid, w))

/-- Outcomes of the storage collaborator calls a single step may make. -/
structure StorageEnv where
  db : List User
  searchFails : Bool := false
  suggestFails : Bool := false
  updateContact : Nat → String → Except Unit (Option ContactRec) := fun _ _ => Except.error ()

/-- handleSearchQuery (routes, line 40): run storage.searchUsers, filter out
    the requester, reply search-results with the first 5 to the requesting
    connection if open; on a storage failure reply an error envelope to the
    requesting connection if open. -/
def handleSearchQuery (env : StorageEnv) (st : HubState) (ws : Nat)
    (info : ClientInfo) (query : String) : List (Nat × Wire) :=
  if env.searchFails then
    if wsIsOpen st ws then [(ws, Wire.errorMsg "Error processing search query")] else []
  else
    let filtered := (searchUsers env.db query).filter (fun u => (some u.id) != info.userId)
    if wsIsOpen st ws then [(ws, Wire.searchResults query (filtered.take 5))] else []

/-- The enrichment step: spread data, add sender, assign a fresh messageId
    when the inbound one is falsy, and overwrite originalSenderId with the
    sender userId. -/
def enrich (data : Envelope) (info : ClientInfo) (fresh : String) : Enriched :=
  { base := data
    senderId := info.userId
    senderName := info.username
    messageId := if truthyStr data.messageId then data.messageId else some fresh
    originalSenderId := info.userId }

/-- The clients map update performed by the auth branch: bind the connection
    to the userId and username taken verbatim from the auth envelope. -/
def authState (st : HubState) (ws : Nat) (data : Envelope) : HubState :=
  st.map (fun c =>
    if c.cid = ws then { c with info := some ⟨data.userId, data.username⟩ } else c)

/-- The sends performed by the auth branch: a user-online broadcast to every
    other open connection, the online-users snapshot to the authenticating
    connection (sent with no readyState check), and the asynchronous
    friend-suggestions reply (sent only while the connection is open). -/
def authSends (env : StorageEnv) (st : HubState) (ws : Nat) (data : Envelope) :
    List (Nat × Wire) :=
  let st' := authState st ws data
  let snapshot := (st'.filterMap (fun c => c.info)).filter
    (fun i => truthyNat i.userId && i.userId != data.userId)
  let sugg := if env.suggestFails then [] else getSuggestions env.db data.userId
  broadcastExcept st ws (Wire.userOnline data.userId data.username)
    ++ [(ws, Wire.onlineUsers snapshot)]
    ++ (if wsIsOpen st' ws then [(ws, Wire.friendSuggestions (sugg.take 5))] else [])

/-- The ack-relay branch: when originalSenderId is truthy, deliver the ack
    to every open connection bound to it; otherwise nothing. -/
def ackRelaySends (st : HubState) (data : Envelope) : List (Nat × Wire) :=
  if truthyNat data.originalSenderId then
    deliverBound st data.originalSenderId (Wire.ackReply data.messageId)
  else []

/-- The contact-status-changed broadcast: every open bound connection whose
    userId matches the acting user or the updated contact record. -/
def contactFanout (st : HubState) (info : ClientInfo) (contact : ContactRec) :
    List (Nat × Wire) :=
  (st.filter (fun c => c.isOpen && c.info.isSome &&
      (infoUserId c.info == info.userId ||
       infoUserId c.info == some contact.contactId))).map
    (fun c => (c.cid, Wire.contactStatusChanged contact.id contact.status info.userId))

/-- The contact-status-update branch: invoke the collaborator; on a record
    broadcast the change, on absent do nothing, on failure reply an error
    with a stable code to the requesting connection with no readyState
    check. -/
def contactUpdateSends (env : StorageEnv) (st : HubState) (ws : Nat)
    (info : ClientInfo) (data : Envelope) : List (Nat × Wire) :=
  match env.updateContact (data.contactId.getD 0) (data.status.getD "") with
  | Except.ok (some contact) => contactFanout st info contact
  | Except.ok none => []
  | Except.error _ =>
    [(ws, Wire.errorWithCode "Failed to update contact status"
      "CONTACT_STATUS_UPDATE_FAILED")]

/-- The per-type dispatch switch, applied to an enriched envelope from an
    authenticated connection whose type is neither auth nor a relayed ack. -/
def dispatchSends (env : StorageEnv) (st : HubState) (ws : Nat) (fresh : String)
    (data : Envelope) (info : ClientInfo) : List (Nat × Wire) :=
  if data.type = "direct-message" ∨ data.type = "typing-indicator" then
    if truthyNat data.targetUserId then
      deliverBound st data.targetUserId (Wire.enrichedMsg (enrich data info fresh)) else []
  else if data.type = "like-post" then
    if truthyNat data.postId && truthyNat data.ownerId then
      deliverBound st data.ownerId (Wire.enrichedMsg (enrich data info fresh)) else []
  else if data.type = "like-story" then
    if truthyNat data.storyId && truthyNat data.ownerId then
      deliverBound st data.ownerId (Wire.enrichedMsg (enrich data info fresh)) else []
  else if data.type = "like-reel" then
    if truthyNat data.reelId && truthyNat data.ownerId then
      deliverBound st data.ownerId (Wire.enrichedMsg (enrich data info fresh)) else []
  else if data.type = "comment" then
    if truthyNat data.contentId && truthyStr data.contentType && truthyNat data.ownerId then
      deliverBound st data.ownerId (Wire.enrichedMsg (enrich data info fresh)) else []
  else if data.type = "follow-request" ∨ data.type = "follow-accept" then
    if truthyNat data.targetUserId then
      deliverBound st data.targetUserId (Wire.enrichedMsg (enrich data info fresh)) else []
  else if data.type = "search-query" then
    if truthyStr data.query then
      handleSearchQuery env st ws info (data.query.getD "") else []
  else if data.type = "contact-status-update" then
    if truthyNat data.contactId && truthyStr data.status then
      contactUpdateSends env st ws info data else []
  else
    broadcastExcept st ws (Wire.enrichedMsg (enrich data info fresh))

/-- The ws.on message handler: auth branch, authentication gate, ack relay,
    enrichment, and the per-type dispatch switch. Returns the sends it
    performs (in order) and the updated hub state. -/
def handleMessage (env : StorageEnv) (st : HubState) (ws : Nat) (fresh : String)
    (data : Envelope) : List (Nat × Wire) × HubState :=
  if data.type = "auth" then
    (authSends env st ws data, authState st ws data)
  else
    match boundInfo st ws with
    | none => ([(ws, Wire.errorMsg "Not authenticated")], st)
    | some info =>
      if data.type = "ack" ∧ truthyStr data.messageId then
        (ackRelaySends st data, st)
      else
        (dispatchSends env st ws fresh data info, st)

/-- The ws.on close handler: broadcast user-offline when the closing
    connection had a binding with a truthy userId, then remove the
    connection from the set and the clients map. -/
def handleClose (st : HubState) (ws : Nat) : List (Nat × Wire) × HubState :=
  let sends := match boundInfo st ws with
    | some i =>
      if truthyNat i.userId then
        broadcastExcept st ws (Wire.userOffline i.userId i.username)
      else []
    | none => []
  (sends, st.filter (fun c => c.cid != ws))

/-- A lifecycle event the hub reacts to. -/
inductive HubEvent where
  | connect (cid : Nat)
  | message (cid : Nat) (fresh : String) (data : Envelope)
  | close (cid : Nat)

/-- The connection handling the event. -/
def HubEvent.source : HubEvent → Nat
  | HubEvent.connect c => c
  | HubEvent.message c _ _ => c
  | HubEvent.close c => c

/-- One hub step: the wss.on connection handler (adds the connection and
    sends the connection confirmation with no readyState check), the
    message handler, or the close handler. -/
def hubStep (env : StorageEnv) (st : HubState) : HubEvent → List (Nat × Wire) × HubState
  | HubEvent.connect c => ([(c, Wire.connectionConfirm)], st ++ [⟨c, true, none⟩])
  | HubEvent.message c fresh data => handleMessage env st c fresh data
  | HubEvent.close c => handleClose st c

/-- AIChatBotService.initPeriodicMessages (ai-chat-bot.ts line 37):
    setInterval with delay floor(random times 1800000) plus 1800000
    milliseconds. The delay expression is evaluated once, so only the
    first element of the stream of floored draws is consumed. -/
def periodicDelayMs (randFloor : Nat → Nat) : Nat :=
  randFloor 0 + 30 * 60 * 1000

/-- The instant of the k-th firing of the periodic job (k counted from 0):
    setInterval fires every periodicDelayMs milliseconds. -/
def periodicFireTimeMs (randFloor : Nat → Nat) (k : Nat) : Nat :=
  (k + 1) * periodicDelayMs randFloor


/- Concrete database rows, hub states and envelopes used by the
   counterexamples and witnesses below. -/

/-- A stored user row with a password, as the users table holds it. -/
def aliceUser : User := { id := 1, username := "alice", password := "hunter2" }

/-- A second stored user row. -/
def bobUser : User := { id := 2, username := "bob", password := "pw2" }

/-- A storage environment whose collaborator calls succeed. -/
def envMain : StorageEnv := { db := [aliceUser, bobUser] }

/-- A storage environment whose searchUsers call fails. -/
def envSearchFail : StorageEnv := { db := [aliceUser, bobUser], searchFails := true }

/-- One open connection, number 10, authenticated as user 2 bob. -/
def stOneBob : HubState := [⟨10, true, some ⟨some 2, some "bob"⟩⟩]

/-- Connection 1 bound to user 1, connection 2 bound to user 2,
    connection 3 open and unauthenticated. -/
def stMulti : HubState :=
  [⟨1, true, some ⟨some 1, some "alice"⟩⟩, ⟨2, true, some ⟨some 2, some "bob"⟩⟩,
   ⟨3, true, none⟩]

/-- Connections 1 and 2 both bound to user 1, connection 3 bound to user 2. -/
def stTwoAlice : HubState :=
  [⟨1, true, some ⟨some 1, some "alice"⟩⟩, ⟨2, true, some ⟨some 1, some "alice"⟩⟩,
   ⟨3, true, some ⟨some 2, some "bob"⟩⟩]

/-- Connection 1 bound to user 1, connection 2 bound to user 2. -/
def stSelf : HubState :=
  [⟨1, true, some ⟨some 1, some "alice"⟩⟩, ⟨2, true, some ⟨some 2, some "bob"⟩⟩]

/-- Ack-relay scenario: connection 1 is bound to user 2; user 1 has an open
    connection 5 and a closed connection 6; connection 7 is open unbound. -/
def stAckTargets : HubState :=
  [⟨1, true, some ⟨some 2, some "bob"⟩⟩, ⟨5, true, some ⟨some 1, some "alice"⟩⟩,
   ⟨6, false, some ⟨some 1, some "alice"⟩⟩, ⟨7, true, none⟩]

/-- A single bound connection whose transport is already closed. -/
def stClosedAlice : HubState := [⟨1, false, some ⟨some 1, some "alice"⟩⟩]

/-- search-query envelope with the query ali. -/
def eSearchAli : Envelope := { type := "search-query", query := some "ali" }

/-- search-query envelope with an empty query string. -/
def eSearchEmpty : Envelope := { type := "search-query", query := some "" }

/-- auth envelope for user 1 alice. -/
def eAuthAlice : Envelope := { type := "auth", userId := some 1, username := some "alice" }

/-- direct-message envelope targeting user 1. -/
def eDirectSelf : Envelope :=
  { type := "direct-message", targetUserId := some 1, content := some "hi" }

/-- ack envelope carrying a messageId and originalSenderId 1. -/
def eAckFull : Envelope :=
  { type := "ack", messageId := some "mid1", originalSenderId := some 1 }

/-- ack envelope without a messageId. -/
def eAckNoId : Envelope := { type := "ack", originalSenderId := some 1 }

/-- contact-status-update envelope. -/
def eContactUpd : Envelope :=
  { type := "contact-status-update", contactId := some 5, status := some "blocked" }

/-- an envelope of an unrecognized type, routed to the default broadcast. -/
def eHello : Envelope := { type := "hello", content := some "x" }

/-- A stream of floored random draws that is constant. -/
def fixedDraws : Nat → Nat := fun _ => 500

/-- A stream of floored random draws that agrees with fixedDraws at index 0
    and differs at every later index. -/
def altDraws : Nat → Nat := fun k => if k = 0 then 500 else 1799999

/- Helper lemmas about the delivery primitives. -/

/-- Membership in a broadcast-except-sender list is exactly: the payload is
    the broadcast payload and the target is some other open connection. -/
theorem mem_broadcastExcept {st : HubState} {ws t : Nat} {w v : Wire} :
    (t, v) ∈ broadcastExcept st ws w
      ↔ v = w ∧ ∃ c ∈ st, c.cid = t ∧ t ≠ ws ∧ c.isOpen = true := by
  unfold broadcastExcept
  simp only [List.mem_map, List.mem_filter, Bool.and_eq_true, bne_iff_ne, Prod.mk.injEq]
  constructor
  · rintro ⟨c, ⟨hc, hne, hop⟩, hcid, hv⟩
    exact ⟨hv.symm, c, hc, hcid, hcid ▸ hne, hop⟩
  · rintro ⟨hv, c, hc, hcid, hne, hop⟩
    exact ⟨c, ⟨hc, hcid ▸ hne, hop⟩, hcid, hv.symm⟩

/-- Membership in a directed-delivery list is exactly: the payload is the
    delivered payload and the target is an open connection bound to the
    target user. -/
theorem mem_deliverBound {st : HubState} {target : Option Nat} {t : Nat} {w v : Wire} :
    (t, v) ∈ deliverBound st target w
      ↔ v = w ∧ ∃ c ∈ st, c.cid = t ∧ c.isOpen = true ∧ c.info.isSome = true ∧
          infoUserId c.info = target := by
  unfold deliverBound
  simp only [List.mem_map, List.mem_filter, Bool.and_eq_true, beq_iff_eq, Prod.mk.injEq]
  constructor
  · rintro ⟨c, ⟨hc, ⟨hop, hsome⟩, htgt⟩, hcid, hv⟩
    exact ⟨hv.symm, c, hc, hcid, hop, hsome, htgt⟩
  · rintro ⟨hv, c, hc, hcid, hop, hsome, htgt⟩
    exact ⟨c, ⟨hc, ⟨hop, hsome⟩, htgt⟩, hcid, hv.symm⟩

/-- Every element of a broadcast list carries the broadcast payload. -/
theorem snd_of_mem_broadcastExcept {st : HubState} {ws : Nat} {w : Wire} {p : Nat × Wire}
    (hp : p ∈ broadcastExcept st ws w) : p.2 = w := by
  unfold broadcastExcept at hp
  obtain ⟨c, -, rfl⟩ := List.mem_map.mp hp
  rfl

/-- Every element of a directed-delivery list carries the delivered payload. -/
theorem snd_of_mem_deliverBound {st : HubState} {target : Option Nat} {w : Wire} {p : Nat × Wire}
    (hp : p ∈ deliverBound st target w) : p.2 = w := by
  unfold deliverBound at hp
  obtain ⟨c, -, rfl⟩ := List.mem_map.mp hp
  rfl

/-- The search helper only ever sends to the requesting connection. -/
theorem target_of_mem_handleSearchQuery {env : StorageEnv} {st : HubState} {ws : Nat}
    {info : ClientInfo} {q : String} {p : Nat × Wire}
    (hp : p ∈ handleSearchQuery env st ws info q) : p.1 = ws := by
  unfold handleSearchQuery at hp
  split at hp <;> split at hp <;> simp_all

/-- Contact-status-changed fanout targets only open connections. -/
theorem open_of_mem_contactFanout {st : HubState} {info : ClientInfo} {contact : ContactRec}
    {t : Nat} {v : Wire} (h : (t, v) ∈ contactFanout st info contact) :
    ∃ c ∈ st, c.cid = t ∧ c.isOpen = true := by
  unfold contactFanout at h
  obtain ⟨c, hc, heq⟩ := List.mem_map.mp h
  obtain ⟨hcin, hp⟩ := List.mem_filter.mp hc
  simp only [Bool.and_eq_true] at hp
  cases heq
  exact ⟨c, hcin, rfl, hp.1.1⟩

/-- Sends of the contact-status-update branch going to a connection other
    than the requester target only open connections. -/
theorem open_of_mem_contactUpdateSends {env : StorageEnv} {st : HubState} {ws : Nat}
    {info : ClientInfo} {data : Envelope} {t : Nat} {v : Wire}
    (hmem : (t, v) ∈ contactUpdateSends env st ws info data) (hne : t ≠ ws) :
    ∃ c ∈ st, c.cid = t ∧ c.isOpen = true := by
  unfold contactUpdateSends at hmem
  split at hmem
  · exact open_of_mem_contactFanout hmem
  · cases hmem
  · have h3 := List.mem_singleton.mp hmem
    rw [Prod.mk.injEq] at h3
    exact absurd h3.1 hne

/-- Ack-relay sends target only open connections. -/
theorem open_of_mem_ackRelaySends {st : HubState} {data : Envelope} {t : Nat} {v : Wire}
    (hmem : (t, v) ∈ ackRelaySends st data) :
    ∃ c ∈ st, c.cid = t ∧ c.isOpen = true := by
  unfold ackRelaySends at hmem
  split at hmem
  · obtain ⟨-, c', hc', hcid, hop, -, -⟩ := mem_deliverBound.mp hmem
    exact ⟨c', hc', hcid, hop⟩
  · cases hmem

/-- Dispatch-switch sends going to a connection other than the handling one
    target only open connections. -/
theorem open_of_mem_dispatchSends {env : StorageEnv} {st : HubState} {ws : Nat}
    {fresh : String} {data : Envelope} {info : ClientInfo} {t : Nat} {v : Wire}
    (hmem : (t, v) ∈ dispatchSends env st ws fresh data info) (hne : t ≠ ws) :
    ∃ c ∈ st, c.cid = t ∧ c.isOpen = true := by
  unfold dispatchSends at hmem
  repeat' split at hmem
  all_goals first
    | cases hmem
    | (obtain ⟨-, c', hc', hcid, -, hop⟩ := mem_broadcastExcept.mp hmem
       exact ⟨c', hc', hcid, hop⟩)
    | (obtain ⟨-, c', hc', hcid, hop, -, -⟩ := mem_deliverBound.mp hmem
       exact ⟨c', hc', hcid, hop⟩)
    | exact absurd (target_of_mem_handleSearchQuery hmem) hne
    | exact open_of_mem_contactUpdateSends hmem hne

/- Claim C1. -/

/-- C1: refuted by the code. When an authenticated connection sends a
    search-query, the search-results payload placed on the wire carries the
    full user rows returned by searchUsers, the password column included:
    with the users table holding alice whose password is hunter2, the reply
    to the requesting connection contains that password verbatim. -/
theorem C1_search_results_carry_password :
    (hubStep envMain stOneBob (HubEvent.message 10 "m1" eSearchAli)).1
      = [(10, Wire.searchResults "ali" [aliceUser])]
    ∧ aliceUser.password = "hunter2" :=
  ⟨by decide, rfl⟩

/- Claim C2. -/

/-- C2 counterexample: in stMulti user 1 already has exactly one bound
    connection, so the claim mandates that a further auth as user 1 fires no
    user-online event; yet the auth on connection 3 broadcasts user-online
    to connections 1 and 2. -/
theorem C2_second_auth_fires_user_online :
    (stMulti.filter (fun c => infoUserId c.info == some 1)).length = 1
    ∧ (1, Wire.userOnline (some 1) (some "alice"))
        ∈ (hubStep envMain stMulti (HubEvent.message 3 "m2" eAuthAlice)).1
    ∧ (2, Wire.userOnline (some 1) (some "alice"))
        ∈ (hubStep envMain stMulti (HubEvent.message 3 "m2" eAuthAlice)).1 :=
  ⟨by decide, by decide, by decide⟩

/-- C2 amended: on every auth envelope, whatever the prior connection count
    of the user, a user-online event with the envelope userId and username
    is sent exactly to every other open connection. -/
theorem C2_user_online_on_every_auth (env : StorageEnv) (st : HubState) (ws : Nat)
    (fresh : String) (data : Envelope) (h : data.type = "auth") (t : Nat) :
    (t, Wire.userOnline data.userId data.username)
        ∈ (hubStep env st (HubEvent.message ws fresh data)).1
      ↔ ∃ c ∈ st, c.cid = t ∧ t ≠ ws ∧ c.isOpen = true := by
  simp only [hubStep, handleMessage, authSends, h, reduceIte, List.mem_append]
  constructor
  · rintro ((hmem | hmem) | hmem)
    · exact (mem_broadcastExcept.mp hmem).2
    · simp at hmem
    · revert hmem
      split <;> simp
  · intro hex
    exact Or.inl (Or.inl (mem_broadcastExcept.mpr ⟨rfl, hex⟩))

/-- C2 witness: the amended theorem applied to the concrete stMulti state. -/
theorem C2_user_online_on_every_auth_witness :
    ((1, Wire.userOnline (some 1) (some "alice"))
        ∈ (hubStep envMain stMulti (HubEvent.message 3 "m2" eAuthAlice)).1)
      ↔ ∃ c ∈ stMulti, c.cid = 1 ∧ 1 ≠ 3 ∧ c.isOpen = true :=
  C2_user_online_on_every_auth envMain stMulti 3 "m2" eAuthAlice rfl 1

/- Claim C3. -/

/-- C3 counterexample: in stTwoAlice user 1 keeps bound connection 2 after
    connection 1 closes, so the claim mandates zero user-offline events; yet
    the close of connection 1 broadcasts user-offline to connections 2
    and 3. -/
theorem C3_close_with_remaining_connections_fires_user_offline :
    (stTwoAlice.filter (fun c => c.cid != 1 && infoUserId c.info == some 1)).length = 1
    ∧ (hubStep envMain stTwoAlice (HubEvent.close 1)).1
        = [(2, Wire.userOffline (some 1) (some "alice")),
           (3, Wire.userOffline (some 1) (some "alice"))] :=
  ⟨by decide, by decide⟩

/-- C3 amended: on every close of a connection bound with a truthy userId,
    whatever the number of remaining connections of that user, a
    user-offline event is sent exactly to every other open connection. -/
theorem C3_user_offline_on_every_bound_close (env : StorageEnv) (st : HubState) (ws : Nat)
    (i : ClientInfo) (hb : boundInfo st ws = some i) (hu : truthyNat i.userId = true) (t : Nat) :
    (t, Wire.userOffline i.userId i.username) ∈ (hubStep env st (HubEvent.close ws)).1
      ↔ ∃ c ∈ st, c.cid = t ∧ t ≠ ws ∧ c.isOpen = true := by
  simp only [hubStep, handleClose, hb, hu, reduceIte]
  rw [mem_broadcastExcept]
  simp

/-- C3 witness: the amended theorem applied to the concrete stTwoAlice
    state. -/
theorem C3_user_offline_on_every_bound_close_witness :
    ((2, Wire.userOffline (some 1) (some "alice"))
        ∈ (hubStep envMain stTwoAlice (HubEvent.close 1)).1)
      ↔ ∃ c ∈ stTwoAlice, c.cid = 2 ∧ 2 ≠ 1 ∧ c.isOpen = true :=
  C3_user_offline_on_every_bound_close envMain stTwoAlice 1 ⟨some 1, some "alice"⟩
    (by decide) (by decide) 2

/- Claim C4. -/

/-- C4 counterexample: connection 10 is authenticated and the collaborator
    default set for the empty query is nonempty, yet the empty search-query
    produces no send at all, in particular no search-results reply. -/
theorem C4_empty_query_no_reply :
    boundInfo stOneBob 10 = some ⟨some 2, some "bob"⟩
    ∧ searchUsers envMain.db "" = [aliceUser, bobUser]
    ∧ (hubStep envMain stOneBob (HubEvent.message 10 "m4" eSearchEmpty)).1 = [] :=
  ⟨by decide, by decide, by decide⟩

/-- C4 amended: an authenticated search-query whose query string is empty or
    absent is dropped by the truthiness guard: the hub performs no send for
    it, neither results nor an error. -/
theorem C4_empty_query_silently_dropped (env : StorageEnv) (st : HubState) (ws : Nat)
    (fresh : String) (data : Envelope) (info : ClientInfo)
    (hb : boundInfo st ws = some info) (ht : data.type = "search-query")
    (hq : data.query = some "" ∨ data.query = none) :
    (hubStep env st (HubEvent.message ws fresh data)).1 = [] := by
  rcases hq with hq | hq <;>
    simp [hubStep, handleMessage, dispatchSends, ht, hb, hq, truthyStr]

/-- C4 witness: the amended theorem applied to the concrete stOneBob
    state. -/
theorem C4_empty_query_silently_dropped_witness :
    (hubStep envMain stOneBob (HubEvent.message 10 "m4w" eSearchEmpty)).1 = [] :=
  C4_empty_query_silently_dropped envMain stOneBob 10 "m4w" eSearchEmpty
    ⟨some 2, some "bob"⟩ (by decide) rfl (Or.inl rfl)

/- Claim C5. -/

/-- C5 counterexample: under the stream altDraws, whose draw at index 1
    would give a fresh delay of 3599999 ms, the gap between the first and
    second firing is still 1800500 ms, the startup draw; the schedule even
    coincides with the one obtained under fixedDraws, which differs from
    altDraws everywhere after index 0, so no fresh draw is made per cycle. -/
theorem C5_interval_fixed_at_startup :
    periodicFireTimeMs altDraws 1 - periodicFireTimeMs altDraws 0 = 1800500
    ∧ periodicFireTimeMs altDraws 2 - periodicFireTimeMs altDraws 1 = 1800500
    ∧ 30 * 60 * 1000 + altDraws 1 = 3599999
    ∧ periodicFireTimeMs altDraws 2 - periodicFireTimeMs altDraws 1
        ≠ 30 * 60 * 1000 + altDraws 1
    ∧ periodicFireTimeMs altDraws 2 = periodicFireTimeMs fixedDraws 2 := by
  decide

/-- C5 amended: the delay is the floored draw made once at startup plus 30
    minutes, hence lies in the range of 30 inclusive to 60 exclusive
    minutes, and every pair of consecutive firings is separated by this same
    fixed delay. -/
theorem C5_fixed_delay_in_range (randFloor : Nat → Nat) (h : randFloor 0 < 1800000)
    (k : Nat) :
    periodicFireTimeMs randFloor (k + 1) - periodicFireTimeMs randFloor k
        = periodicDelayMs randFloor
    ∧ 1800000 ≤ periodicDelayMs randFloor
    ∧ periodicDelayMs randFloor < 3600000 := by
  unfold periodicFireTimeMs periodicDelayMs
  refine ⟨?_, by omega, by omega⟩
  have h2 : (k + 1 + 1) * (randFloor 0 + 30 * 60 * 1000)
      = (k + 1) * (randFloor 0 + 30 * 60 * 1000) + (randFloor 0 + 30 * 60 * 1000) := by
    ring
  rw [h2, Nat.add_sub_cancel_left]

/-- C5 witness: the amended theorem applied to the constant draw stream. -/
theorem C5_fixed_delay_in_range_witness :
    periodicFireTimeMs fixedDraws 1 - periodicFireTimeMs fixedDraws 0
        = periodicDelayMs fixedDraws
    ∧ 1800000 ≤ periodicDelayMs fixedDraws
    ∧ periodicDelayMs fixedDraws < 3600000 :=
  C5_fixed_delay_in_range fixedDraws (by decide) 0

/- Claim C6. -/

/-- C6 counterexample: when searchUsers fails, the requesting connection
    receives an error envelope, not nothing. -/
theorem C6_search_failure_sends_error :
    (hubStep envSearchFail stOneBob (HubEvent.message 10 "m6" eSearchAli)).1
      = [(10, Wire.errorMsg "Error processing search query")] := by
  decide

/-- C6 amended: when the searchUsers collaborator call of an authenticated
    search-query fails, the hub sends exactly one error envelope to the
    requesting connection if it is still open, and nothing at all
    otherwise; no other connection receives anything. -/
theorem C6_search_failure_error_reply (env : StorageEnv) (st : HubState) (ws : Nat)
    (fresh : String) (data : Envelope) (info : ClientInfo)
    (hb : boundInfo st ws = some info) (ht : data.type = "search-query")
    (hq : truthyStr data.query = true) (hf : env.searchFails = true) :
    (hubStep env st (HubEvent.message ws fresh data)).1
      = if wsIsOpen st ws then [(ws, Wire.errorMsg "Error processing search query")]
        else [] := by
  simp [hubStep, handleMessage, dispatchSends, handleSearchQuery, ht, hb, hq, hf]

/-- C6 witness: the amended theorem applied to the concrete failing
    environment. -/
theorem C6_search_failure_error_reply_witness :
    (hubStep envSearchFail stOneBob (HubEvent.message 10 "m6w" eSearchAli)).1
      = if wsIsOpen stOneBob 10
        then [(10, Wire.errorMsg "Error processing search query")] else [] :=
  C6_search_failure_error_reply envSearchFail stOneBob 10 "m6w" eSearchAli
    ⟨some 2, some "bob"⟩ (by decide) rfl (by decide) rfl

/- Claim C7. -/

/-- C7 counterexample: connection 1, bound to user 1, sends a direct-message
    whose targetUserId is its own user 1; the enriched envelope is delivered
    back to connection 1, so the sending connection does receive an echo. -/
theorem C7_self_target_echoes_to_sender :
    boundInfo stSelf 1 = some ⟨some 1, some "alice"⟩
    ∧ (1, Wire.enrichedMsg (enrich eDirectSelf ⟨some 1, some "alice"⟩ "m7"))
        ∈ (hubStep envMain stSelf (HubEvent.message 1 "m7" eDirectSelf)).1 :=
  ⟨by decide, by decide⟩

/-- C7 amended: a direct-message with truthy targetUserId equal to T is
    delivered exactly to the open connections bound to T; the sender is not
    excluded from the fanout, so it receives the envelope precisely when its
    own connection is bound to T. -/
theorem C7_directed_delivery (env : StorageEnv) (st : HubState) (ws : Nat) (fresh : String)
    (data : Envelope) (info : ClientInfo) (T : Nat)
    (hb : boundInfo st ws = some info) (ht : data.type = "direct-message")
    (hT : data.targetUserId = some T) (hT0 : T ≠ 0) (t : Nat) :
    (t, Wire.enrichedMsg (enrich data info fresh))
        ∈ (hubStep env st (HubEvent.message ws fresh data)).1
      ↔ ∃ c ∈ st, c.cid = t ∧ c.isOpen = true ∧ c.info.isSome = true ∧
          infoUserId c.info = some T := by
  have htr : truthyNat (some T) = true := by simp [truthyNat, hT0]
  simp only [hubStep, handleMessage, dispatchSends, ht, hb, hT, htr, String.reduceEq,
    reduceIte, true_or, false_or, or_self, false_and, true_and, eq_self_iff_true]
  rw [mem_deliverBound]
  simp

/-- C7 witness: the amended theorem applied to the self-targeted concrete
    scenario. -/
theorem C7_directed_delivery_witness :
    (1, Wire.enrichedMsg (enrich eDirectSelf ⟨some 1, some "alice"⟩ "m7w"))
      ∈ (hubStep envMain stSelf (HubEvent.message 1 "m7w" eDirectSelf)).1 :=
  (C7_directed_delivery envMain stSelf 1 "m7w" eDirectSelf ⟨some 1, some "alice"⟩ 1
    (by decide) rfl rfl (by decide) 1).mpr (by decide)

/- Claim C8. -/

/-- C8: an ack from an authenticated connection carrying a truthy messageId
    M and a truthy originalSenderId S produces only ack envelopes carrying
    M, and one reaches a connection exactly when it is open and bound to S;
    in particular, when S has no live connection the ack is dropped. -/
theorem C8_ack_relay (env : StorageEnv) (st : HubState) (ws : Nat) (fresh : String)
    (data : Envelope) (info : ClientInfo) (M : String) (S : Nat)
    (hb : boundInfo st ws = some info) (ht : data.type = "ack")
    (hM : data.messageId = some M) (hM0 : M ≠ "")
    (hS : data.originalSenderId = some S) (hS0 : S ≠ 0) :
    (∀ p ∈ (hubStep env st (HubEvent.message ws fresh data)).1,
        p.2 = Wire.ackReply (some M))
    ∧ ∀ t : Nat,
      ((t, Wire.ackReply (some M)) ∈ (hubStep env st (HubEvent.message ws fresh data)).1
        ↔ ∃ c ∈ st, c.cid = t ∧ c.isOpen = true ∧ c.info.isSome = true ∧
            infoUserId c.info = some S) := by
  have hmt : truthyStr (some M) = true := by simp [truthyStr, hM0]
  have hst : truthyNat (some S) = true := by simp [truthyNat, hS0]
  simp only [hubStep, handleMessage, ackRelaySends, ht, hb, hM, hS, hmt, hst,
    String.reduceEq, reduceIte, true_or, false_or, or_self, false_and, true_and,
    eq_self_iff_true]
  constructor
  · exact fun p hp => snd_of_mem_deliverBound hp
  · intro t
    rw [mem_deliverBound]
    simp

/-- C8 witness: in stAckTargets user 1 has open connection 5 and closed
    connection 6; the relayed ack reaches connection 5. -/
theorem C8_ack_relay_witness :
    (5, Wire.ackReply (some "mid1"))
      ∈ (hubStep envMain stAckTargets (HubEvent.message 1 "f8" eAckFull)).1 :=
  ((C8_ack_relay envMain stAckTargets 1 "f8" eAckFull ⟨some 2, some "bob"⟩ "mid1" 1
      (by decide) rfl rfl (by decide) rfl (by decide)).2 5).mpr (by decide)

/- Claim C9. -/

/-- C9 counterexample: the contact-status-update error reply is sent with no
    readyState check: with the requesting connection already closed and the
    collaborator failing, the hub still emits a send to that closed
    connection. -/
theorem C9_error_reply_sent_to_closed_connection :
    (hubStep envMain stClosedAlice (HubEvent.message 1 "m9" eContactUpd)).1
      = [(1, Wire.errorWithCode "Failed to update contact status"
          "CONTACT_STATUS_UPDATE_FAILED")]
    ∧ wsIsOpen stClosedAlice 1 = false :=
  ⟨by decide, by decide⟩

/-- C9 amended: every send the hub produces whose target is a connection
    other than the one handling the event goes only to a connection observed
    open in the current state; only the direct replies to the handling
    connection itself may skip the readyState check. -/
theorem C9_nonself_sends_only_to_open (env : StorageEnv) (st : HubState) (ev : HubEvent)
    (t : Nat) (w : Wire)
    (hmem : (t, w) ∈ (hubStep env st ev).1) (hne : t ≠ ev.source) :
    ∃ c ∈ st, c.cid = t ∧ c.isOpen = true := by
  cases ev with
  | connect c =>
    simp only [hubStep, HubEvent.source, List.mem_singleton, Prod.mk.injEq] at hmem hne
    exact absurd hmem.1 hne
  | close c =>
    simp only [hubStep, handleClose, HubEvent.source] at hmem hne
    repeat' split at hmem
    all_goals first
      | cases hmem
      | (obtain ⟨-, c', hc', hcid, -, hop⟩ := mem_broadcastExcept.mp hmem
         exact ⟨c', hc', hcid, hop⟩)
  | message c fresh data =>
    simp only [hubStep, HubEvent.source] at hmem hne
    unfold handleMessage at hmem
    split at hmem
    · unfold authSends at hmem
      rcases List.mem_append.mp hmem with h1 | h1
      · rcases List.mem_append.mp h1 with h2 | h2
        · obtain ⟨-, c', hc', hcid, -, hop⟩ := mem_broadcastExcept.mp h2
          exact ⟨c', hc', hcid, hop⟩
        · have h3 := List.mem_singleton.mp h2
          rw [Prod.mk.injEq] at h3
          exact absurd h3.1 hne
      · revert h1
        split
        · intro h1
          have h3 := List.mem_singleton.mp h1
          rw [Prod.mk.injEq] at h3
          exact absurd h3.1 hne
        · intro h1; cases h1
    · repeat' split at hmem
      all_goals first
        | (have h3 := List.mem_singleton.mp hmem
           rw [Prod.mk.injEq] at h3
           exact absurd h3.1 hne)
        | exact open_of_mem_ackRelaySends hmem
        | exact open_of_mem_dispatchSends hmem hne

/-- C9 witness: a default-policy broadcast from connection 1 delivers to the
    open connection 2, which the amended theorem confirms is open. -/
theorem C9_nonself_sends_only_to_open_witness :
    ∃ c ∈ stSelf, c.cid = 2 ∧ c.isOpen = true :=
  C9_nonself_sends_only_to_open envMain stSelf (HubEvent.message 1 "m9w" eHello) 2
    (Wire.enrichedMsg (enrich eHello ⟨some 1, some "alice"⟩ "m9w")) (by decide) (by decide)

/- Claim C10. -/

/-- C10: an ack from an authenticated connection that lacks a truthy
    messageId is not relayed; it falls through to the default policy and is
    broadcast, enriched with the sender, the freshly generated messageId and
    originalSenderId equal to the sender userId, exactly to every open
    connection other than the sender. -/
theorem C10_unacked_ack_broadcast (env : StorageEnv) (st : HubState) (ws : Nat)
    (fresh : String) (data : Envelope) (info : ClientInfo)
    (hb : boundInfo st ws = some info) (ht : data.type = "ack")
    (hm : truthyStr data.messageId = false) :
    (∀ p ∈ (hubStep env st (HubEvent.message ws fresh data)).1,
        p.2 = Wire.enrichedMsg ⟨data, info.userId, info.username, some fresh, info.userId⟩)
    ∧ ∀ t : Nat,
      ((t, Wire.enrichedMsg ⟨data, info.userId, info.username, some fresh, info.userId⟩)
          ∈ (hubStep env st (HubEvent.message ws fresh data)).1
        ↔ ∃ c ∈ st, c.cid = t ∧ t ≠ ws ∧ c.isOpen = true) := by
  have he : enrich data info fresh
      = ⟨data, info.userId, info.username, some fresh, info.userId⟩ := by
    simp [enrich, hm]
  simp only [hubStep, handleMessage, dispatchSends, ht, hb, hm, he, String.reduceEq,
    reduceIte, true_or, false_or, or_self, false_and, and_false, true_and,
    eq_self_iff_true, Bool.false_eq_true]
  constructor
  · exact fun p hp => snd_of_mem_broadcastExcept hp
  · intro t
    rw [mem_broadcastExcept]
    simp

/-- C10 witness: in stAckTargets an ack without messageId sent by
    connection 1 reaches the open connection 5 as an enriched broadcast. -/
theorem C10_unacked_ack_broadcast_witness :
    (5, Wire.enrichedMsg ⟨eAckNoId, some 2, some "bob", some "f10", some 2⟩)
      ∈ (hubStep envMain stAckTargets (HubEvent.message 1 "f10" eAckNoId)).1 :=
  ((C10_unacked_ack_broadcast envMain stAckTargets 1 "f10" eAckNoId ⟨some 2, some "bob"⟩
      (by decide) rfl rfl).2 5).mpr (by decide)

end Mingleo
